import Mathlib

/-!
Verification of the fluent-bit out_pulsar and out_narvar output plugins.

The plugins are thin C adapters between the host agent and external sinks.
We embed them shallowly: the msgpack wire buffer is modelled as the sequence
of complete msgpack objects that parse from it (plus a flag recording whether
trailing bytes fail to parse), external collaborators (msgpack unpacking,
the pulsar client, the fluent-bit JSON converter, memory allocation) are
modelled as explicit inputs, and each C callback becomes a pure Lean
function returning the outcome it would hand back to the host agent.
-/

/-- A msgpack object, as produced by msgpack_unpack_next: the dynamic,
self-describing value model of the wire format (nil, booleans, integers,
floats carried as raw IEEE bits, strings, binary blobs, arrays, maps with
arbitrary keys, and extension values). -/
inductive MValue where
  | nil : MValue
  | boolv (b : Bool) : MValue
  | intv (i : Int) : MValue
  | floatv (bits : Nat) : MValue
  | strv (s : String) : MValue
  | binv (bs : List Nat) : MValue
  | arr (xs : List MValue) : MValue
  | mp (kvs : List (MValue × MValue)) : MValue
  | extv (tag : Int) (bs : List Nat) : MValue
  deriving Repr

/-- A JSON value, the target of the re-encoding step. Objects keep their
key-value pairs as an ordered list, matching the serializer which writes
pairs in the order they were packed. -/
inductive Json where
  | null : Json
  | boolv (b : Bool) : Json
  | intv (i : Int) : Json
  | floatv (bits : Nat) : Json
  | strv (s : String) : Json
  | arr (xs : List Json) : Json
  | obj (kvs : List (String × Json)) : Json
  deriving Repr

mutual

/-- Modelled from the spec: the single well-defined conversion from the
msgpack value model to JSON used by flb_msgpack_raw_to_json_str (fluent-bit
core, not part of this repository). Supported tags map onto the native JSON
types without coercion; binary/extension values are not representable and
fail; map keys must be strings. Pair and element order is preserved. -/
def mjson : MValue → Option Json
  | .nil => some .null
  | .boolv b => some (.boolv b)
  | .intv i => some (.intv i)
  | .floatv bits => some (.floatv bits)
  | .strv s => some (.strv s)
  | .binv _ => none
  | .extv _ _ => none
  | .arr xs => (mjsonList xs).map Json.arr
  | .mp kvs => (mjsonPairs kvs).map Json.obj

/-- Element-wise JSON conversion of a msgpack array body, in order, failing
if any element fails. -/
def mjsonList : List MValue → Option (List Json)
  | [] => some []
  | x :: xs => do
    let j ← mjson x
    let js ← mjsonList xs
    pure (j :: js)

/-- Pair-wise JSON conversion of a msgpack map body, in order, failing if a
key is not a string or a value fails. -/
def mjsonPairs : List (MValue × MValue) → Option (List (String × Json))
  | [] => some []
  | (k, v) :: rest =>
    match k with
    | .strv s => do
      let j ← mjson v
      let js ← mjsonPairs rest
      pure ((s, j) :: js)
    | _ => none

end

example : mjson (.mp [(.strv "msg", .strv "a")]) =
    some (.obj [("msg", .strv "a")]) := by rfl

example : mjson (.arr [.intv 3, .mp [(.strv "k", .nil)]]) =
    some (.arr [.intv 3, .obj [("k", .null)]]) := by rfl

example : mjson (.mp [(.intv 1, .strv "a")]) = none := by rfl

/-- The raw input buffer (data, bytes) handed to a flush callback. We model
it as the list of complete msgpack objects that msgpack_unpack_next parses
in sequence, plus a flag recording whether trailing bytes remain that do not
parse as a complete object (a truncated or corrupt tail). At such a tail
msgpack_unpack_next stops returning objects, exactly as it does at a clean
end of buffer. -/
structure RawBatch where
  items : List MValue
  corrupt : Bool
  deriving Repr

/-- The first loop of cb_pulsar_flush (pulsar.c lines 60 to 64): iterate the
original buffer with msgpack_unpack_next, incrementing array_size once per
record, until no further complete object parses. -/
def pulsarCountPass : List MValue → Nat
  | [] => 0
  | _ :: rest => pulsarCountPass rest + 1

/-- The expression root.via.array.ptr[1] of pulsar.c line 76: the second
element of the record tuple, the field-map. Reading ptr[1] of a non-array or
of an array with fewer than two elements is undefined behaviour in the C; we
return nil there, and every claim about this expression assumes well-formed
records. -/
def recordFieldMap : MValue → MValue
  | .arr xs => xs.getD 1 .nil
  | _ => .nil

/-- Lines 78 to 87 of pulsar.c: take map_size from the field-map, pack a map
header of that size and then each key and value in order. When the value is
not actually a map, via.map.size and via.map.ptr are undefined in the C; we
model that case as an empty map, and claims assume well-formed records. -/
def packRecordMap (r : MValue) : MValue :=
  match recordFieldMap r with
  | .mp kvs => .mp kvs
  | _ => .mp []

/-- The second loop of cb_pulsar_flush (pulsar.c lines 72 to 88): iterate
the buffer again with msgpack_unpack_next, popping the timestamp and packing
each record field-map into the temporary buffer. -/
def pulsarPackPass : List MValue → List MValue
  | [] => []
  | r :: rest => packRecordMap r :: pulsarPackPass rest

/-- The temporary msgpack buffer tmp_sbuf: an array header with a declared
length (the msgpack_pack_array argument) followed by the packed elements. -/
structure PackedBuffer where
  declaredLen : Nat
  elems : List MValue
  deriving Repr

/-- Lines 67 to 88 of pulsar.c: pack an array header sized by the first pass
count, then run the second pass. -/
def pulsarTmpBuffer (b : RawBatch) : PackedBuffer :=
  { declaredLen := pulsarCountPass b.items, elems := pulsarPackPass b.items }

/-- Modelled from the spec: flb_msgpack_raw_to_json_str (fluent-bit core,
not part of this repository) converts the packed msgpack buffer into a JSON
string; it fails (nonzero return) when its internal allocation fails or the
buffer does not convert. The allocOk input models the allocation outcome. We
keep the result as a JSON value rather than its rendered text. -/
def flb_msgpack_raw_to_json_str (allocOk : Bool) (b : PackedBuffer) :
    Option Json :=
  if allocOk then
    if b.declaredLen ≤ b.elems.length then
      (mjsonList (b.elems.take b.declaredLen)).map Json.arr
    else none
  else none

/-- The value cb_flush hands back through FLB_OUTPUT_RETURN: FLB_OK,
FLB_ERROR or FLB_RETRY. -/
inductive FlushOutcome where
  | ok : FlushOutcome
  | error : FlushOutcome
  | retry : FlushOutcome
  deriving DecidableEq, Repr

/-- The pulsar client result type: pulsar_result_Ok or an error code. -/
inductive PulsarResult where
  | ok : PulsarResult
  | err (code : Nat) : PulsarResult
  deriving DecidableEq, Repr

/-- The topic configuration inside struct flb_pulsar (pulsar.h). -/
structure FlbTopicConf where
  broker : String
  topic : String
  deriving DecidableEq, Repr

/-- The plugin context struct flb_pulsar (pulsar.h): topic configuration,
the blocked field, and the batching flag set on the producer configuration.
The opaque client and producer handles carry no observable state here. -/
structure FlbPulsar where
  topic_conf : FlbTopicConf
  blocked : Int
  batchingEnabled : Bool
  deriving DecidableEq, Repr

/-- Outcomes of the external calls a single flush makes: whether allocation
inside the JSON conversion succeeds, and the pulsar_producer_send result. -/
structure FlushEnv where
  allocOk : Bool
  send : PulsarResult
  deriving DecidableEq, Repr

/-- Everything observable about one pulsar flush invocation: the outcome
returned to the host agent, the payloads of the outbound messages handed to
pulsar_producer_send, and the input buffer as it stands when the callback
returns. -/
structure PulsarFlushResult where
  outcome : FlushOutcome
  messages : List Json
  buffer : RawBatch
  deriving Repr

/-- The cb_pulsar_flush callback (pulsar.c lines 36 to 114): count the
records, re-pack every field-map into a temporary array, convert it to one
JSON string, and send it as a single message. A failed conversion returns
FLB_ERROR with no message created; a failed send logs and returns FLB_ERROR;
otherwise FLB_OK. The input buffer is only read. -/
def cb_pulsar_flush (env : FlushEnv) (ctx : FlbPulsar) (data : RawBatch) :
    PulsarFlushResult :=
  let tmp := pulsarTmpBuffer data
  match flb_msgpack_raw_to_json_str env.allocOk tmp with
  | none => { outcome := .error, messages := [], buffer := data }
  | some payload =>
    match env.send with
    | .ok => { outcome := .ok, messages := [payload], buffer := data }
    | .err _ => { outcome := .error, messages := [payload], buffer := data }

/-- The FLB_PULSAR_BROKER default of pulsar_conf.h line 10. -/
def FLB_PULSAR_BROKER : String := "pulsar://127.0.0.1:6650"

/-- The FLB_PULSAR_TOPIC default of pulsar_conf.h line 11. -/
def FLB_PULSAR_TOPIC : String := "fluent-bit"

/-- Outcomes of the external calls made while creating the session context:
whether flb_calloc succeeds, the pulsar_client_create_producer result, and
the property table behind flb_output_get_property. -/
structure ConfEnv where
  callocOk : Bool
  producerResult : PulsarResult
  getProperty : String → Option String

/-- Everything observable about one flb_pulsar_conf_create call: the context
it returns (none models a NULL return) and the sequence of property names it
asked the configuration provider for, in call order. -/
structure ConfOutcome where
  ctx : Option FlbPulsar
  queries : List String

/-- The flb_pulsar_conf_create function (pulsar_conf.c lines 9 to 55):
allocate the context (on failure return NULL having queried nothing), read
the broker property falling back to FLB_PULSAR_BROKER, create the client,
enable batching on the producer configuration, read the topic property
falling back to FLB_PULSAR_TOPIC, then create the producer; if that fails,
free the context and return NULL, otherwise return the filled context. -/
def flb_pulsar_conf_create (env : ConfEnv) : ConfOutcome :=
  if env.callocOk then
    let broker :=
      match env.getProperty "broker" with
      | some tmp => tmp
      | none => FLB_PULSAR_BROKER
    let topic :=
      match env.getProperty "topic" with
      | some tmp => tmp
      | none => FLB_PULSAR_TOPIC
    match env.producerResult with
    | .ok =>
      { ctx := some { topic_conf := { broker := broker, topic := topic },
                      blocked := 0, batchingEnabled := true },
        queries := ["broker", "topic"] }
    | .err _ => { ctx := none, queries := ["broker", "topic"] }
  else
    { ctx := none, queries := [] }

/-- Everything observable about one cb_pulsar_init call: the integer
returned to the host agent and the context installed with
flb_output_set_context (none when it was never called). -/
structure InitResult where
  ret : Int
  installed : Option FlbPulsar
  deriving Repr

/-- The cb_pulsar_init callback (pulsar.c lines 19 to 34): create the
configuration context; on failure log and return -1 without installing any
context, otherwise install it and return 0. -/
def cb_pulsar_init (env : ConfEnv) : InitResult :=
  match (flb_pulsar_conf_create env).ctx with
  | none => { ret := -1, installed := none }
  | some ctx => { ret := 0, installed := some ctx }

/-- The flb_time value: seconds and nanoseconds. -/
structure FlbTime where
  sec : Nat
  nsec : Nat
  deriving DecidableEq, Repr

/-- Modelled from the spec: the timestamp sub-format read by
flb_time_pop_from_msgpack (fluent-bit core, not part of this repository),
which fills an flb_time from the first tuple element. A plain integer is
seconds; other encodings carry no observable content our claims depend on
and map to zero. -/
def flbTimeFromMValue : MValue → FlbTime
  | .intv i => { sec := i.toNat, nsec := 0 }
  | _ => { sec := 0, nsec := 0 }

/-- Modelled from the spec: flb_time_pop_from_msgpack (fluent-bit core, not
part of this repository) reads the timestamp out of the two-element record
tuple and hands back a reference to the field-map, the second element,
without copying it. -/
def flb_time_pop_from_msgpack (r : MValue) : FlbTime × MValue :=
  match r with
  | .arr (ts :: m :: _) => (flbTimeFromMValue ts, m)
  | _ => ({ sec := 0, nsec := 0 }, .nil)

/-- Everything observable about one cb_narvar_flush invocation: the outcome
returned to the host agent, the lines printed to stdout (record counter,
tag, popped timestamp and field-map), and the input buffer as it stands when
the callback returns. -/
structure NarvarFlushResult where
  outcome : FlushOutcome
  printed : List (Nat × String × FlbTime × MValue)
  buffer : RawBatch

/-- The cb_narvar_flush callback (narvar.c lines 38 to 75): copy the tag
into a fresh allocation, returning FLB_RETRY if that allocation fails; then
print every record (counter, tag, popped timestamp, field-map) and return
FLB_OK. The input buffer is only read. -/
def cb_narvar_flush (allocOk : Bool) (tag : String) (data : RawBatch) :
    NarvarFlushResult :=
  if allocOk then
    { outcome := .ok,
      printed := data.items.enum.map
        (fun p => (p.1, tag, flb_time_pop_from_msgpack p.2)),
      buffer := data }
  else
    { outcome := .retry, printed := [], buffer := data }

/-- A well-formed record on the wire: a two-element tuple of a timestamp
and a field-map. -/
def wfRecord : MValue → Bool
  | .arr [_, .mp _] => true
  | _ => false

/-- The first pass count is the number of records in the buffer. -/
theorem pulsarCountPass_eq_length (xs : List MValue) :
    pulsarCountPass xs = xs.length := by
  induction xs with
  | nil => rfl
  | cons r rest ih => simp [pulsarCountPass, ih]

/-- The second pass packs one field-map per record, in order. -/
theorem pulsarPackPass_eq_map (xs : List MValue) :
    pulsarPackPass xs = xs.map packRecordMap := by
  induction xs with
  | nil => rfl
  | cons r rest ih => simp [pulsarPackPass, ih]

/-- On a well-formed record the packed object is exactly the field-map. -/
theorem packRecordMap_of_wf {r : MValue} (h : wfRecord r = true) :
    packRecordMap r = recordFieldMap r := by
  rw [wfRecord.eq_def] at h
  split at h
  · rfl
  · cases h

/-- Successful element-wise conversion preserves length. -/
theorem mjsonList_length (xs : List MValue) :
    ∀ js, mjsonList xs = some js → js.length = xs.length := by
  induction xs with
  | nil =>
    intro js h
    simp [mjsonList] at h
    simp [← h]
  | cons x rest ih =>
    intro js h
    simp only [mjsonList] at h
    cases hx : mjson x with
    | none => rw [hx] at h; simp at h
    | some j =>
      rw [hx] at h
      cases hrest : mjsonList rest with
      | none => rw [hrest] at h; simp at h
      | some js2 =>
        rw [hrest] at h
        simp at h
        simp [← h, ih js2 hrest]

/-- On a batch of well-formed records the second pass packs exactly the
record field-maps. -/
theorem pulsarPackPass_of_wf {items : List MValue}
    (h : items.all wfRecord = true) :
    pulsarPackPass items = items.map recordFieldMap := by
  induction items with
  | nil => rfl
  | cons r rest ih =>
    simp only [List.all_cons, Bool.and_eq_true] at h
    simp [pulsarPackPass, packRecordMap_of_wf h.1, ih h.2]

/-- On a batch of well-formed records whose field-maps all convert, the
JSON conversion of the temporary buffer is the array of converted maps. -/
theorem pulsarPayload_of_wf {data : RawBatch} {ms : List Json}
    (hwf : data.items.all wfRecord = true)
    (hconv : mjsonList (data.items.map recordFieldMap) = some ms) :
    flb_msgpack_raw_to_json_str true (pulsarTmpBuffer data) =
      some (Json.arr ms) := by
  unfold flb_msgpack_raw_to_json_str pulsarTmpBuffer
  simp [pulsarCountPass_eq_length, pulsarPackPass_of_wf hwf,
        List.take_of_length_le, hconv]

/-- On a batch of well-formed convertible records with working allocation
and a successful send, the flush result is FLB_OK with the single whole
batch message and the untouched buffer. -/
theorem pulsar_flush_ok_core (env : FlushEnv) (ctx : FlbPulsar)
    (data : RawBatch) {ms : List Json}
    (hwf : data.items.all wfRecord = true)
    (halloc : env.allocOk = true) (hsend : env.send = .ok)
    (hms : mjsonList (data.items.map recordFieldMap) = some ms) :
    cb_pulsar_flush env ctx data =
      { outcome := .ok, messages := [Json.arr ms], buffer := data } := by
  have hkey : flb_msgpack_raw_to_json_str env.allocOk (pulsarTmpBuffer data)
      = some (Json.arr ms) := by
    rw [halloc]; exact pulsarPayload_of_wf hwf hms
  simp [cb_pulsar_flush, hkey, hsend]

/-- Sample record with timestamp 1000 and field-map containing msg = a. -/
def sampleRecordA : MValue := .arr [.intv 1000, .mp [(.strv "msg", .strv "a")]]

/-- Sample record with timestamp 1001 and field-map containing msg = b. -/
def sampleRecordB : MValue := .arr [.intv 1001, .mp [(.strv "msg", .strv "b")]]

/-- The two-record scenario batch of the spec. -/
def sampleBatch : RawBatch := { items := [sampleRecordA, sampleRecordB], corrupt := false }

/-- A context built from the default broker and topic. -/
def sampleCtx : FlbPulsar :=
  { topic_conf := { broker := FLB_PULSAR_BROKER, topic := FLB_PULSAR_TOPIC },
    blocked := 0, batchingEnabled := true }

/-- C10: for every input buffer, the record count computed by the first
decoding pass of cb_pulsar_flush equals the number of field-maps packed by
its second pass, so the temporary msgpack buffer is a well-formed array
whose declared length equals its actual number of elements. -/
theorem pulsar_tmp_buffer_wellformed (b : RawBatch) :
    (pulsarTmpBuffer b).declaredLen = (pulsarTmpBuffer b).elems.length := by
  show pulsarCountPass b.items = (pulsarPackPass b.items).length
  rw [pulsarCountPass_eq_length, pulsarPackPass_eq_map, List.length_map]

/-- C9: both flush callbacks only read the input raw batch buffer: whatever
the outcome, the buffer at return is identical to the buffer at entry. -/
theorem flush_buffer_unchanged :
    (∀ env ctx data, (cb_pulsar_flush env ctx data).buffer = data) ∧
    (∀ allocOk tag data, (cb_narvar_flush allocOk tag data).buffer = data) := by
  constructor
  · intro env ctx data
    cases h : flb_msgpack_raw_to_json_str env.allocOk (pulsarTmpBuffer data) with
    | none => simp [cb_pulsar_flush, h]
    | some payload =>
      cases hs : env.send with
      | ok => simp [cb_pulsar_flush, h, hs]
      | err code => simp [cb_pulsar_flush, h, hs]
  · intro allocOk tag data
    cases allocOk with
    | false => rfl
    | true => rfl

/-- C4 amended: the plugin has no per-record mode: every flush hands the
broker at most one message (the whole-batch JSON array), and the messages
produced are independent of the configuration context. -/
theorem pulsar_flush_always_single_message (env : FlushEnv) (ctx : FlbPulsar)
    (data : RawBatch) :
    (cb_pulsar_flush env ctx data).messages.length ≤ 1 ∧
    ∀ ctx2, (cb_pulsar_flush env ctx2 data).messages =
      (cb_pulsar_flush env ctx data).messages := by
  constructor
  · cases h : flb_msgpack_raw_to_json_str env.allocOk (pulsarTmpBuffer data) with
    | none => simp [cb_pulsar_flush, h]
    | some payload =>
      cases hs : env.send with
      | ok => simp [cb_pulsar_flush, h, hs]
      | err code => simp [cb_pulsar_flush, h, hs]
  · intro ctx2
    rfl

/-- C4 counterexample: flushing the two-record scenario batch produces one
outbound message, not two independent per-record messages. -/
theorem pulsar_flush_single_message_counterexample :
    sampleBatch.items.length = 2 ∧
    (cb_pulsar_flush { allocOk := true, send := .ok } sampleCtx
      sampleBatch).messages.length = 1 :=
  ⟨rfl, rfl⟩

/-- C1: on a well-formed buffer of K records with a working conversion and
a successful send, one pulsar flush produces exactly one outbound message
whose payload is a single JSON array of length K whose elements are the
JSON conversions of the record field-maps in original order with pair order
preserved, and the flush returns FLB_OK. -/
theorem cb_pulsar_flush_wholebatch (env : FlushEnv) (ctx : FlbPulsar)
    (data : RawBatch)
    (hwf : data.items.all wfRecord = true)
    (hcorrupt : data.corrupt = false)
    (halloc : env.allocOk = true)
    (hsend : env.send = .ok)
    (hsupp : (mjsonList (data.items.map recordFieldMap)).isSome = true) :
    (cb_pulsar_flush env ctx data).outcome = .ok ∧
    ∃ ms, (cb_pulsar_flush env ctx data).messages = [Json.arr ms] ∧
      ms.length = data.items.length ∧
      mjsonList (data.items.map recordFieldMap) = some ms := by
  obtain ⟨ms, hms⟩ := Option.isSome_iff_exists.mp hsupp
  have hcore := pulsar_flush_ok_core env ctx data hwf halloc hsend hms
  have hlen : ms.length = data.items.length := by
    have := mjsonList_length (data.items.map recordFieldMap) ms hms
    simpa using this
  exact ⟨by rw [hcore], ms, by rw [hcore], hlen, hms⟩

/-- C1 witness: the two-record scenario batch under working allocation and
a successful send. -/
theorem cb_pulsar_flush_wholebatch_witness :
    (sampleBatch.items.all wfRecord = true ∧
     sampleBatch.corrupt = false ∧
     (FlushEnv.mk true .ok).allocOk = true ∧
     (FlushEnv.mk true .ok).send = .ok ∧
     (mjsonList (sampleBatch.items.map recordFieldMap)).isSome = true) ∧
    ((cb_pulsar_flush (FlushEnv.mk true .ok) sampleCtx sampleBatch).outcome = .ok ∧
     ∃ ms, (cb_pulsar_flush (FlushEnv.mk true .ok) sampleCtx
        sampleBatch).messages = [Json.arr ms] ∧
       ms.length = sampleBatch.items.length ∧
       mjsonList (sampleBatch.items.map recordFieldMap) = some ms) :=
  ⟨⟨rfl, rfl, rfl, rfl, rfl⟩,
   cb_pulsar_flush_wholebatch (FlushEnv.mk true .ok) sampleCtx sampleBatch
     rfl rfl rfl rfl rfl⟩

/-- A one-record buffer whose trailing bytes are truncated: one valid
record sits ahead of the corruption point. -/
def truncatedBatch : RawBatch := { items := [sampleRecordA], corrupt := true }

/-- C2 counterexample: on a truncated buffer holding one valid record ahead
of the corruption point, the flush does not report a decode failure: it
sends the partial record sequence as a normal message and returns FLB_OK. -/
theorem pulsar_flush_truncated_counterexample :
    truncatedBatch.corrupt = true ∧
    (cb_pulsar_flush (FlushEnv.mk true .ok) sampleCtx
      truncatedBatch).outcome = .ok ∧
    (cb_pulsar_flush (FlushEnv.mk true .ok) sampleCtx
      truncatedBatch).messages =
      [Json.arr [Json.obj [("msg", Json.strv "a")]]] :=
  ⟨rfl, rfl, rfl⟩

/-- C2 amended: a buffer with a truncated or corrupt tail is not reported
as a decode failure: msgpack_unpack_next simply stops yielding records at
the corruption point, the valid records before it are re-encoded, and on a
successful send the flush returns FLB_OK having sent exactly that partial
record sequence. -/
theorem pulsar_flush_truncated_sends_valid_records (env : FlushEnv)
    (ctx : FlbPulsar) (data : RawBatch)
    (hcorrupt : data.corrupt = true)
    (hwf : data.items.all wfRecord = true)
    (halloc : env.allocOk = true) (hsend : env.send = .ok)
    (hsupp : (mjsonList (data.items.map recordFieldMap)).isSome = true) :
    (cb_pulsar_flush env ctx data).outcome = .ok ∧
    ∃ ms, (cb_pulsar_flush env ctx data).messages = [Json.arr ms] ∧
      ms.length = data.items.length := by
  obtain ⟨ms, hms⟩ := Option.isSome_iff_exists.mp hsupp
  have hcore := pulsar_flush_ok_core env ctx data hwf halloc hsend hms
  have hlen : ms.length = data.items.length := by
    have := mjsonList_length (data.items.map recordFieldMap) ms hms
    simpa using this
  exact ⟨by rw [hcore], ms, by rw [hcore], hlen⟩

/-- C2 witness: the truncated one-record buffer under working allocation
and a successful send. -/
theorem pulsar_flush_truncated_sends_valid_records_witness :
    (truncatedBatch.corrupt = true ∧
     truncatedBatch.items.all wfRecord = true ∧
     (FlushEnv.mk true .ok).allocOk = true ∧
     (FlushEnv.mk true .ok).send = .ok ∧
     (mjsonList (truncatedBatch.items.map recordFieldMap)).isSome = true) ∧
    ((cb_pulsar_flush (FlushEnv.mk true .ok) sampleCtx
        truncatedBatch).outcome = .ok ∧
     ∃ ms, (cb_pulsar_flush (FlushEnv.mk true .ok) sampleCtx
        truncatedBatch).messages = [Json.arr ms] ∧
       ms.length = truncatedBatch.items.length) :=
  ⟨⟨rfl, rfl, rfl, rfl, rfl⟩,
   pulsar_flush_truncated_sends_valid_records (FlushEnv.mk true .ok)
     sampleCtx truncatedBatch rfl rfl rfl rfl rfl⟩

/-- C3 counterexample: when the broker send fails on the scenario batch the
flush returns FLB_ERROR, not FLB_RETRY, so the host agent drops the batch
instead of re-presenting it. -/
theorem pulsar_flush_send_error_counterexample :
    (cb_pulsar_flush (FlushEnv.mk true (.err 5)) sampleCtx
      sampleBatch).outcome = .error ∧
    (cb_pulsar_flush (FlushEnv.mk true (.err 5)) sampleCtx
      sampleBatch).outcome ≠ .retry :=
  ⟨rfl, by decide⟩

/-- C3 amended: when the broker send operation returns an error the flush
signals FLB_ERROR to the host agent, not FLB_RETRY: the one constructed
message was handed to the producer and the batch is discarded rather than
re-presented. -/
theorem pulsar_flush_send_error_returns_error (env : FlushEnv)
    (ctx : FlbPulsar) (data : RawBatch) (code : Nat)
    (hsend : env.send = .err code)
    (hjson : (flb_msgpack_raw_to_json_str env.allocOk
      (pulsarTmpBuffer data)).isSome = true) :
    (cb_pulsar_flush env ctx data).outcome = .error ∧
    (cb_pulsar_flush env ctx data).outcome ≠ .retry ∧
    (cb_pulsar_flush env ctx data).messages.length = 1 := by
  obtain ⟨payload, hp⟩ := Option.isSome_iff_exists.mp hjson
  refine ⟨?_, ?_, ?_⟩ <;> simp [cb_pulsar_flush, hp, hsend]

/-- C3 witness: a failing send on the scenario batch. -/
theorem pulsar_flush_send_error_returns_error_witness :
    ((FlushEnv.mk true (.err 5)).send = .err 5 ∧
     (flb_msgpack_raw_to_json_str (FlushEnv.mk true (.err 5)).allocOk
       (pulsarTmpBuffer sampleBatch)).isSome = true) ∧
    ((cb_pulsar_flush (FlushEnv.mk true (.err 5)) sampleCtx
        sampleBatch).outcome = .error ∧
     (cb_pulsar_flush (FlushEnv.mk true (.err 5)) sampleCtx
        sampleBatch).outcome ≠ .retry ∧
     (cb_pulsar_flush (FlushEnv.mk true (.err 5)) sampleCtx
        sampleBatch).messages.length = 1) :=
  ⟨⟨rfl, rfl⟩,
   pulsar_flush_send_error_returns_error (FlushEnv.mk true (.err 5))
     sampleCtx sampleBatch 5 rfl rfl⟩

/-- C7 counterexample: a failed allocation inside the JSON conversion of a
pulsar flush yields FLB_ERROR, not the FLB_RETRY the claim requires. -/
theorem pulsar_flush_alloc_failure_counterexample :
    (cb_pulsar_flush (FlushEnv.mk false .ok) sampleCtx
      sampleBatch).outcome = .error ∧
    (cb_pulsar_flush (FlushEnv.mk false .ok) sampleCtx
      sampleBatch).outcome ≠ .retry :=
  ⟨rfl, by decide⟩

/-- C7 amended: allocation failure is signalled inconsistently between the
two plugins: the narvar flush abandons the flush with FLB_RETRY when its
tag allocation fails, while the pulsar flush abandons it with FLB_ERROR
when allocation inside its msgpack-to-JSON conversion fails, with no
message created. -/
theorem flush_alloc_failure_outcomes :
    (∀ tag data, (cb_narvar_flush false tag data).outcome = .retry) ∧
    (∀ send ctx data,
      (cb_pulsar_flush (FlushEnv.mk false send) ctx data).outcome = .error ∧
      (cb_pulsar_flush (FlushEnv.mk false send) ctx data).messages = []) := by
  constructor
  · intro tag data
    rfl
  · intro send ctx data
    constructor <;> simp [cb_pulsar_flush, flb_msgpack_raw_to_json_str]

mutual

/-- Whether a JSON value contains an object pair with the given key,
anywhere in its tree. -/
def jsonHasKey (key : String) : Json → Bool
  | .arr xs => jsonHasKeyList key xs
  | .obj kvs => jsonHasKeyPairs key kvs
  | _ => false

/-- Key search over a list of JSON values. -/
def jsonHasKeyList (key : String) : List Json → Bool
  | [] => false
  | x :: xs => jsonHasKey key x || jsonHasKeyList key xs

/-- Key search over the pairs of a JSON object. -/
def jsonHasKeyPairs (key : String) : List (String × Json) → Bool
  | [] => false
  | (k, v) :: rest => k == key || jsonHasKey key v || jsonHasKeyPairs key rest

end

/-- C5 counterexample: flushing the scenario batch serializes exactly the
bare field-maps: the timestamps 1000 and 1001 popped by
flb_time_pop_from_msgpack appear nowhere in the payload and no date key is
injected, because the code unconditionally discards the popped timestamp
and reads no timestamp configuration. -/
theorem pulsar_flush_timestamp_dropped_counterexample :
    (cb_pulsar_flush (FlushEnv.mk true .ok) sampleCtx sampleBatch).messages =
      [Json.arr [Json.obj [("msg", Json.strv "a")],
                 Json.obj [("msg", Json.strv "b")]]] ∧
    jsonHasKeyList "date"
      (cb_pulsar_flush (FlushEnv.mk true .ok) sampleCtx
        sampleBatch).messages = false :=
  ⟨rfl, rfl⟩

/-- The scenario batch with both timestamps replaced by zero. -/
def sampleBatchZeroTs : RawBatch :=
  { items := [.arr [.intv 0, .mp [(.strv "msg", .strv "a")]],
              .arr [.intv 0, .mp [(.strv "msg", .strv "b")]]],
    corrupt := false }

/-- C5 amended: the timestamp read out of each record is always discarded
and no configuration re-inserts it: the flush outcome and messages depend
only on the packed field-maps, so two batches that agree on field-maps but
differ arbitrarily in timestamps yield identical outcomes and messages
under every configuration context. -/
theorem pulsar_flush_payload_ignores_timestamps (env : FlushEnv)
    (ctx ctx2 : FlbPulsar) (d1 d2 : RawBatch)
    (hmaps : d1.items.map packRecordMap = d2.items.map packRecordMap) :
    (cb_pulsar_flush env ctx d1).outcome =
      (cb_pulsar_flush env ctx2 d2).outcome ∧
    (cb_pulsar_flush env ctx d1).messages =
      (cb_pulsar_flush env ctx2 d2).messages := by
  have hlen : d1.items.length = d2.items.length := by
    have := congrArg List.length hmaps
    simpa using this
  have htmp : pulsarTmpBuffer d1 = pulsarTmpBuffer d2 := by
    unfold pulsarTmpBuffer
    rw [pulsarCountPass_eq_length, pulsarCountPass_eq_length,
        pulsarPackPass_eq_map, pulsarPackPass_eq_map, hlen, hmaps]
  constructor <;>
  · simp only [cb_pulsar_flush, htmp]
    cases flb_msgpack_raw_to_json_str env.allocOk (pulsarTmpBuffer d2) with
    | none => rfl
    | some payload => cases env.send <;> rfl

/-- C5 witness: the scenario batch and its zero-timestamp variant produce
the same outcome and messages. -/
theorem pulsar_flush_payload_ignores_timestamps_witness :
    (sampleBatch.items.map packRecordMap =
      sampleBatchZeroTs.items.map packRecordMap) ∧
    ((cb_pulsar_flush (FlushEnv.mk true .ok) sampleCtx sampleBatch).outcome =
      (cb_pulsar_flush (FlushEnv.mk true .ok) sampleCtx
        sampleBatchZeroTs).outcome ∧
     (cb_pulsar_flush (FlushEnv.mk true .ok) sampleCtx sampleBatch).messages =
      (cb_pulsar_flush (FlushEnv.mk true .ok) sampleCtx
        sampleBatchZeroTs).messages) :=
  ⟨rfl,
   pulsar_flush_payload_ignores_timestamps (FlushEnv.mk true .ok)
     sampleCtx sampleCtx sampleBatch sampleBatchZeroTs rfl⟩

/-- A configuration environment whose producer creation fails. -/
def sampleConfEnvFail : ConfEnv :=
  { callocOk := true, producerResult := .err 1, getProperty := fun _ => none }

/-- A configuration environment with a broker property set, no topic
property, and a successful producer creation. -/
def sampleConfEnvOk : ConfEnv :=
  { callocOk := true, producerResult := .ok,
    getProperty := fun name =>
      if name = "broker" then some "pulsar://example:6650" else none }

/-- C6: when producer creation fails during session creation,
flb_pulsar_conf_create returns NULL, so cb_pulsar_init returns -1 to the
host agent and never installs a session context: the failure surfaces at
initialization, not at the first flush. -/
theorem cb_pulsar_init_producer_failure (env : ConfEnv) (code : Nat)
    (hprod : env.producerResult = .err code) :
    (flb_pulsar_conf_create env).ctx = none ∧
    (cb_pulsar_init env).ret = -1 ∧
    (cb_pulsar_init env).installed = none := by
  have hctx : (flb_pulsar_conf_create env).ctx = none := by
    unfold flb_pulsar_conf_create
    cases hc : env.callocOk with
    | false => simp
    | true => simp [hprod]
  refine ⟨hctx, ?_, ?_⟩ <;> simp [cb_pulsar_init, hctx]

/-- C6 witness: a concrete environment whose producer creation fails. -/
theorem cb_pulsar_init_producer_failure_witness :
    sampleConfEnvFail.producerResult = .err 1 ∧
    ((flb_pulsar_conf_create sampleConfEnvFail).ctx = none ∧
     (cb_pulsar_init sampleConfEnvFail).ret = -1 ∧
     (cb_pulsar_init sampleConfEnvFail).installed = none) :=
  ⟨rfl, cb_pulsar_init_producer_failure sampleConfEnvFail 1 rfl⟩

/-- C8: once the context allocation succeeds, session creation queries the
configuration provider exactly once for the broker property and exactly
once for the topic property, in that order; the hardcoded defaults are the
literals of pulsar_conf.h; and any context it returns carries the provided
value when the property is present and the default when it is absent. -/
theorem flb_pulsar_conf_create_properties (env : ConfEnv)
    (hcalloc : env.callocOk = true) :
    (flb_pulsar_conf_create env).queries = ["broker", "topic"] ∧
    (flb_pulsar_conf_create env).queries.count "broker" = 1 ∧
    (flb_pulsar_conf_create env).queries.count "topic" = 1 ∧
    FLB_PULSAR_BROKER = "pulsar://127.0.0.1:6650" ∧
    FLB_PULSAR_TOPIC = "fluent-bit" ∧
    (∀ ctx, (flb_pulsar_conf_create env).ctx = some ctx →
      ctx.topic_conf.broker = (env.getProperty "broker").getD FLB_PULSAR_BROKER ∧
      ctx.topic_conf.topic = (env.getProperty "topic").getD FLB_PULSAR_TOPIC) := by
  have hq : (flb_pulsar_conf_create env).queries = ["broker", "topic"] := by
    unfold flb_pulsar_conf_create
    rw [hcalloc]
    cases env.producerResult <;> simp
  refine ⟨hq, by rw [hq]; rfl, by rw [hq]; rfl, rfl, rfl, ?_⟩
  intro ctx hctx
  unfold flb_pulsar_conf_create at hctx
  rw [hcalloc] at hctx
  cases hp : env.producerResult with
  | err code => rw [hp] at hctx; simp at hctx
  | ok =>
    rw [hp] at hctx
    simp only [if_true, reduceIte] at hctx
    simp only [Option.some.injEq] at hctx
    cases hb : env.getProperty "broker" <;> cases ht : env.getProperty "topic" <;>
      rw [hb, ht] at hctx <;> simp [← hctx, hb, ht]

/-- C8 witness: an environment with the broker property present and the
topic property absent. -/
theorem flb_pulsar_conf_create_properties_witness :
    sampleConfEnvOk.callocOk = true ∧
    ((flb_pulsar_conf_create sampleConfEnvOk).queries = ["broker", "topic"] ∧
     (flb_pulsar_conf_create sampleConfEnvOk).queries.count "broker" = 1 ∧
     (flb_pulsar_conf_create sampleConfEnvOk).queries.count "topic" = 1 ∧
     FLB_PULSAR_BROKER = "pulsar://127.0.0.1:6650" ∧
     FLB_PULSAR_TOPIC = "fluent-bit" ∧
     (∀ ctx, (flb_pulsar_conf_create sampleConfEnvOk).ctx = some ctx →
       ctx.topic_conf.broker =
         (sampleConfEnvOk.getProperty "broker").getD FLB_PULSAR_BROKER ∧
       ctx.topic_conf.topic =
         (sampleConfEnvOk.getProperty "topic").getD FLB_PULSAR_TOPIC)) :=
  ⟨rfl, flb_pulsar_conf_create_properties sampleConfEnvOk rfl⟩
